import Mathlib

/-!
Shallow embedding of the RegioJet delay-monitoring utility: the transit
API client `regiojet_api.py` (station search, route matching, delay
filtering, delay-summary statistics) and the `app.py` front-end endpoint.
Upstream JSON records are modelled as structures whose optional keys are
`Option` fields; Python `dict.get(k, d)` becomes `Option.getD`, and the
HTTP layer is abstracted away: each operation takes the already-fetched
response as an argument.
-/

namespace Regiojet

/-- One stop entry of a route's `connectionStations` sequence:
`stationId` is required, the time and platform keys may be absent. -/
structure Stop where
  stationId : Int
  departure : Option String
  arrival : Option String
  platform : Option String
deriving DecidableEq

/-- An upstream route record as returned by the departures endpoint,
restricted to the keys `find_route` reads.  `connectionStations` is read
with `route.get('connectionStations', [])`, so an absent key is the empty
list. -/
structure UpRoute where
  connectionStations : List Stop
  number : Option String
  label : Option String
  delay : Option Int
  freeSeatsCount : Option Int
  vehicleStandard : Option String
deriving DecidableEq

/-- The flattened route summary dict emitted by `find_route`. -/
structure RouteSummary where
  number : Option String
  label : Option String
  delay : Int
  free_seats : Int
  departure_time : Option String
  arrival_time : Option String
  departure_platform : Option String
  arrival_platform : Option String
  vehicle_standard : Option String
  all_stations : List Stop
deriving DecidableEq

/-- The four local variables of `find_route`'s scan over a route's stops,
all initialised to `None`. -/
structure ScanAcc where
  departure_time : Option String
  arrival_time : Option String
  departure_platform : Option String
  arrival_platform : Option String
deriving DecidableEq

/-- One iteration of the stop scan in `find_route`: two independent `if`s
(not `elif`), each an unconditional overwrite of the accumulated values. -/
def scanStep (fromId toId : Int) (acc : ScanAcc) (s : Stop) : ScanAcc :=
  let acc1 := if s.stationId = fromId then
    { acc with departure_time := s.departure, departure_platform := s.platform }
  else acc
  if s.stationId = toId then
    { acc1 with arrival_time := s.arrival, arrival_platform := s.platform }
  else acc1

/-- The full `for station in stations` scan of `find_route`. -/
def scanStops (fromId toId : Int) (stops : List Stop) : ScanAcc :=
  stops.foldl (scanStep fromId toId) ⟨none, none, none, none⟩

/-- The body of the `for route in departures` loop of `find_route` for a
single departure record: `None` means the record is not appended. -/
def summarize (fromId toId : Int) (route : UpRoute) : Option RouteSummary :=
  let stations := route.connectionStations
  let station_ids := stations.map Stop.stationId
  if toId ∈ station_ids then
    let acc := scanStops fromId toId stations
    some { number := route.number
           label := route.label
           delay := route.delay.getD 0
           free_seats := route.freeSeatsCount.getD 0
           departure_time := acc.departure_time
           arrival_time := acc.arrival_time
           departure_platform := acc.departure_platform
           arrival_platform := acc.arrival_platform
           vehicle_standard := route.vehicleStandard
           all_stations := stations }
  else none

/-- `RegioJetAPI.find_route`, applied to an already-fetched departures
response: keep, in order, the summaries of the routes whose stop sequence
contains the destination station ID. -/
def find_route (departures : List UpRoute) (fromId toId : Int) :
    List RouteSummary :=
  departures.filterMap (summarize fromId toId)

/-- `RegioJetAPI.check_delays`: run `find_route` and filter by
`r['delay'] >= threshold` only when `threshold > 0`. -/
def check_delays (departures : List UpRoute) (fromId toId : Int)
    (threshold : Int) : List RouteSummary :=
  let routes := find_route departures fromId toId
  if threshold > 0 then routes.filter (fun r => decide (r.delay ≥ threshold))
  else routes

/-- What `RegioJetAPI.print_delays_summary` prints: either the
`No routes found.` notice or the computed statistics line values. -/
inductive SummaryOutput where
  | noRoutes : SummaryOutput
  | summary (total on_time delayed : Nat) (avg_delay : ℚ) (max_delay : Int) :
      SummaryOutput
deriving DecidableEq

/-- `RegioJetAPI.print_delays_summary`.  Python float division is modelled
over `ℚ`; the `if total > 0` guard of the source is kept as written. -/
def print_delays_summary (routes : List RouteSummary) : SummaryOutput :=
  if routes.isEmpty then SummaryOutput.noRoutes
  else
    let total := routes.length
    let on_time := routes.countP (fun r => decide (r.delay = 0))
    let delayed := total - on_time
    let avg_delay : ℚ :=
      if total > 0 then ((routes.map RouteSummary.delay).sum : ℚ) / (total : ℚ)
      else 0
    let max_delay : Int :=
      match routes.map RouteSummary.delay with
      | [] => 0
      | d :: ds => ds.foldl max d
    SummaryOutput.summary total on_time delayed avg_delay max_delay

/-- The `f"{avg_delay:.1f}"` rendering of the average: the value rounded
to one decimal place. -/
def round_one_decimal (q : ℚ) : ℚ := (round (q * 10) : ℚ) / 10

/-- A station node of the location directory: `name` and `id` are
required keys, `fullname` and `address` are read with `.get`. -/
structure Station where
  name : String
  id : Int
  fullname : Option String
  address : Option String
deriving DecidableEq

/-- A city node of the location directory. -/
structure City where
  name : String
  id : Int
  stations : List Station
deriving DecidableEq

/-- A country node of the location directory (`country.get('cities', [])`,
so an absent key is the empty list; no other key is read). -/
structure Country where
  cities : List City
deriving DecidableEq

/-- The flat record `find_station` appends for one matching station. -/
structure StationResult where
  city : String
  city_id : Int
  station : String
  station_id : Int
  fullname : String
  address : String
deriving DecidableEq

/-- Whether `needle` occurs at the start of `hay` (character lists). -/
def startsWithChars : List Char → List Char → Bool
  | [], _ => true
  | _ :: _, [] => false
  | a :: as, b :: bs => a = b && startsWithChars as bs

/-- Whether `needle` occurs somewhere in `hay` (character lists). -/
def hasSubChars (hay needle : List Char) : Bool :=
  match hay with
  | [] => needle.isEmpty
  | _ :: t => startsWithChars needle hay || hasSubChars t needle

/-- Python `needle in hay` on strings: substring containment. -/
def containsSub (hay needle : String) : Bool :=
  hasSubChars hay.toList needle.toList

/-- Python `str.lower()`: lower-case each character. -/
def lower (s : String) : String := ⟨s.data.map Char.toLower⟩

/-- The record `find_station` emits for `station` under `city` (both
branches build the same dict). -/
def mkStationResult (city : City) (station : Station) : StationResult :=
  { city := city.name
    city_id := city.id
    station := station.name
    station_id := station.id
    fullname := station.fullname.getD ""
    address := station.address.getD "N/A" }

/-- The per-station test of the `else` branch of `find_station`:
lower-cased search term against station name or full name. -/
def stationMatches (search_lower : String) (station : Station) : Bool :=
  containsSub (lower station.name) search_lower ||
    containsSub (lower (station.fullname.getD "")) search_lower

/-- The results contributed by one city in `find_station`'s loop:
city-name match emits every station, otherwise stations are tested
individually. -/
def cityResults (search_lower : String) (city : City) : List StationResult :=
  if containsSub (lower city.name) search_lower then
    city.stations.map (mkStationResult city)
  else
    (city.stations.filter (stationMatches search_lower)).map
      (mkStationResult city)

/-- `RegioJetAPI.find_station`, applied to an already-fetched location
directory. -/
def find_station (locations : List Country) (search_term : String) :
    List StationResult :=
  let search_lower := lower search_term
  locations.flatMap
    (fun country => country.cities.flatMap (cityResults search_lower))

/-- Result of the `subprocess.run` call in `app.py`. -/
structure ProcResult where
  returncode : Int
  stdout : String
  stderr : String
deriving DecidableEq

/-- The JSON body the `/api/delays` endpoint responds with, over an
abstract type `J` of parsed JSON payloads. -/
inductive ResponseBody (J : Type) where
  | payload (data : J) : ResponseBody J
  | successEnvelope (raw_output : String) : ResponseBody J
  | errorEnvelope (message : String) : ResponseBody J
deriving DecidableEq

/-- The `get_delays` view of `app.py`:  `invocation` is the attempted
subprocess call (`Except.error` models an exception escaping it),
`json_loads` the JSON parse of its stdout (`none` models a parse
failure).  Returns the response body and the HTTP status code. -/
def get_delays {J : Type} (json_loads : String → Option J)
    (invocation : Except String ProcResult) : ResponseBody J × Nat :=
  match invocation with
  | Except.error e => (ResponseBody.errorEnvelope e, 500)
  | Except.ok result =>
    if result.returncode = 0 then
      match json_loads result.stdout with
      | some data => (ResponseBody.payload data, 200)
      | none => (ResponseBody.successEnvelope result.stdout, 200)
    else (ResponseBody.errorEnvelope result.stderr, 500)

/-- The last element of `stops` satisfying `p`, if any: the stop whose
values survive a non-short-circuiting overwrite scan. -/
def lastMatching (p : Stop → Bool) : List Stop → Option Stop
  | [] => none
  | s :: rest =>
    match lastMatching p rest with
    | some r => some r
    | none => if p s then some s else none

/-! Concrete demonstration data: a departures response for origin
station `1` and destination station `2`, and a small location
directory. -/

/-- Demo stop: origin stop of the simple routes. -/
def stopA1 : Stop := ⟨1, some "08:00", none, some "1"⟩

/-- Demo stop: destination stop of the simple routes. -/
def stopA2 : Stop := ⟨2, none, some "09:00", some "2"⟩

/-- Demo stop: an unrelated station `3`. -/
def stopB3 : Stop := ⟨3, some "08:10", none, none⟩

/-- Demo stop: first origin occurrence of the duplicated route. -/
def stopD1a : Stop := ⟨1, some "10:00", none, some "3"⟩

/-- Demo stop: first destination occurrence of the duplicated route. -/
def stopD2a : Stop := ⟨2, none, some "10:30", some "4"⟩

/-- Demo stop: second origin occurrence of the duplicated route. -/
def stopD1b : Stop := ⟨1, some "10:05", none, some "5"⟩

/-- Demo stop: second destination occurrence of the duplicated route. -/
def stopD2b : Stop := ⟨2, none, some "11:00", some "6"⟩

/-- Demo route reaching the destination, delay 5. -/
def routeA : UpRoute :=
  ⟨[stopA1, stopA2], some "101", some "KV - SO", some 5, some 12, some "FUN"⟩

/-- Demo route missing the destination station. -/
def routeB : UpRoute :=
  ⟨[stopA1, stopB3], some "102", some "KV - CH", some 3, some 7, none⟩

/-- Demo route reaching the destination with no `delay` key. -/
def routeC : UpRoute :=
  ⟨[stopA1, stopA2], some "103", some "KV - SO", none, some 4, none⟩

/-- Demo route with duplicated origin and destination stops, delay 12. -/
def routeD : UpRoute :=
  ⟨[stopD1a, stopD2a, stopD1b, stopD2b], some "104", some "KV - SO",
    some 12, some 0, none⟩

/-- Demo departures response. -/
def demoDeps : List UpRoute := [routeA, routeB, routeC, routeD]

/-- The summary `find_route` emits for `routeA`. -/
def sumA : RouteSummary :=
  ⟨some "101", some "KV - SO", 5, 12, some "08:00", some "09:00",
    some "1", some "2", some "FUN", [stopA1, stopA2]⟩

/-- The summary `find_route` emits for `routeC` (delay defaulted to 0). -/
def sumC : RouteSummary :=
  ⟨some "103", some "KV - SO", 0, 4, some "08:00", some "09:00",
    some "1", some "2", none, [stopA1, stopA2]⟩

/-- The summary `find_route` emits for `routeD` (last duplicates win). -/
def sumD : RouteSummary :=
  ⟨some "104", some "KV - SO", 12, 0, some "10:05", some "11:00",
    some "5", some "6", none, [stopD1a, stopD2a, stopD1b, stopD2b]⟩

/-- A route summary carrying only a delay value. -/
def mkSum (d : Int) : RouteSummary :=
  ⟨none, none, d, 0, none, none, none, none, none, []⟩

/-- Route list with the delays `[0, 5, 15]` of the spec's statistics
example. -/
def demoStats : List RouteSummary := [mkSum 0, mkSum 5, mkSum 15]

/-- Demo city whose name matches a "sokolov" search. -/
def citySokolov : City :=
  ⟨"Sokolov", 9001,
    [⟨"Terminal", 721181001, some "Sokolov, Terminal", none⟩,
     ⟨"Tesovice", 721181000, none, some "U trati 1"⟩]⟩

/-- Demo city whose name does not match a "sokolov" search but which has
one station whose name does. -/
def cityPraha : City :=
  ⟨"Praha", 9002,
    [⟨"Florenc", 10204003, some "Praha, Florenc", none⟩,
     ⟨"Sokolovska", 10204004, none, none⟩]⟩

/-- Demo location directory. -/
def demoLocations : List Country := [⟨[citySokolov, cityPraha]⟩]

/-! Helper lemmas shared by the claim theorems. -/

/-- One scan step writes `departure_time` exactly on an origin match. -/
lemma scanStep_departure_time (fromId toId : Int) (acc : ScanAcc) (s : Stop) :
    (scanStep fromId toId acc s).departure_time =
      if s.stationId = fromId then s.departure else acc.departure_time := by
  by_cases h1 : s.stationId = fromId <;> by_cases h2 : s.stationId = toId <;>
    simp [scanStep, h1, h2] <;> split <;> simp [*]

/-- One scan step writes `arrival_time` exactly on a destination match. -/
lemma scanStep_arrival_time (fromId toId : Int) (acc : ScanAcc) (s : Stop) :
    (scanStep fromId toId acc s).arrival_time =
      if s.stationId = toId then s.arrival else acc.arrival_time := by
  by_cases h1 : s.stationId = fromId <;> by_cases h2 : s.stationId = toId <;>
    simp [scanStep, h1, h2] <;> split <;> simp [*]

/-- One scan step writes `departure_platform` exactly on an origin
match. -/
lemma scanStep_departure_platform (fromId toId : Int) (acc : ScanAcc)
    (s : Stop) :
    (scanStep fromId toId acc s).departure_platform =
      if s.stationId = fromId then s.platform else acc.departure_platform := by
  by_cases h1 : s.stationId = fromId <;> by_cases h2 : s.stationId = toId <;>
    simp [scanStep, h1, h2] <;> split <;> simp [*]

/-- One scan step writes `arrival_platform` exactly on a destination
match. -/
lemma scanStep_arrival_platform (fromId toId : Int) (acc : ScanAcc)
    (s : Stop) :
    (scanStep fromId toId acc s).arrival_platform =
      if s.stationId = toId then s.platform else acc.arrival_platform := by
  by_cases h1 : s.stationId = fromId <;> by_cases h2 : s.stationId = toId <;>
    simp [scanStep, h1, h2] <;> split <;> simp [*]

/-- A projection that each step overwrites on a match of station `m`
ends, after the whole fold, at the value of the last matching stop. -/
lemma foldl_scanStep_proj (fromId toId m : Int) (g : ScanAcc → Option String)
    (u : Stop → Option String)
    (hstep : ∀ acc s, g (scanStep fromId toId acc s) =
      if s.stationId = m then u s else g acc) :
    ∀ (stops : List Stop) (init : ScanAcc),
      g (stops.foldl (scanStep fromId toId) init) =
        match lastMatching (fun s => decide (s.stationId = m)) stops with
        | none => g init
        | some s => u s := by
  intro stops
  induction stops with
  | nil => intro init; rfl
  | cons s rest ih =>
    intro init
    rw [List.foldl_cons, ih]
    cases hlm : lastMatching (fun x => decide (x.stationId = m)) rest with
    | none =>
      simp only [lastMatching, hlm, hstep]
      by_cases h : s.stationId = m <;> simp [h]
    | some r => simp only [lastMatching, hlm]

/-- The scan's final `departure_time` is the `departure` of the last
stop matching the origin (or `none`). -/
lemma scanStops_departure_time (fromId toId : Int) (stops : List Stop) :
    (scanStops fromId toId stops).departure_time =
      (lastMatching (fun s => decide (s.stationId = fromId)) stops).bind
        Stop.departure := by
  rw [scanStops, foldl_scanStep_proj fromId toId fromId ScanAcc.departure_time
    Stop.departure (scanStep_departure_time fromId toId)]
  cases lastMatching (fun s => decide (s.stationId = fromId)) stops <;> rfl

/-- The scan's final `arrival_time` is the `arrival` of the last stop
matching the destination (or `none`). -/
lemma scanStops_arrival_time (fromId toId : Int) (stops : List Stop) :
    (scanStops fromId toId stops).arrival_time =
      (lastMatching (fun s => decide (s.stationId = toId)) stops).bind
        Stop.arrival := by
  rw [scanStops, foldl_scanStep_proj fromId toId toId ScanAcc.arrival_time
    Stop.arrival (scanStep_arrival_time fromId toId)]
  cases lastMatching (fun s => decide (s.stationId = toId)) stops <;> rfl

/-- The scan's final `departure_platform` is the `platform` of the last
stop matching the origin (or `none`). -/
lemma scanStops_departure_platform (fromId toId : Int) (stops : List Stop) :
    (scanStops fromId toId stops).departure_platform =
      (lastMatching (fun s => decide (s.stationId = fromId)) stops).bind
        Stop.platform := by
  rw [scanStops, foldl_scanStep_proj fromId toId fromId
    ScanAcc.departure_platform Stop.platform
    (scanStep_departure_platform fromId toId)]
  cases lastMatching (fun s => decide (s.stationId = fromId)) stops <;> rfl

/-- The scan's final `arrival_platform` is the `platform` of the last
stop matching the destination (or `none`). -/
lemma scanStops_arrival_platform (fromId toId : Int) (stops : List Stop) :
    (scanStops fromId toId stops).arrival_platform =
      (lastMatching (fun s => decide (s.stationId = toId)) stops).bind
        Stop.platform := by
  rw [scanStops, foldl_scanStep_proj fromId toId toId
    ScanAcc.arrival_platform Stop.platform
    (scanStep_arrival_platform fromId toId)]
  cases lastMatching (fun s => decide (s.stationId = toId)) stops <;> rfl

/-- Membership in `find_route` output comes from some departure record
whose summary it is. -/
lemma mem_find_route (departures : List UpRoute) (fromId toId : Int)
    (r : RouteSummary) (hr : r ∈ find_route departures fromId toId) :
    ∃ route ∈ departures, summarize fromId toId route = some r := by
  simpa [find_route] using List.mem_filterMap.mp hr

/-- Field equations of a successful `summarize`. -/
lemma summarize_some_fields (fromId toId : Int) (route : UpRoute)
    (r : RouteSummary) (h : summarize fromId toId route = some r) :
    toId ∈ route.connectionStations.map Stop.stationId ∧
    r.delay = route.delay.getD 0 ∧
    r.all_stations = route.connectionStations ∧
    r.departure_time =
      (scanStops fromId toId route.connectionStations).departure_time ∧
    r.arrival_time =
      (scanStops fromId toId route.connectionStations).arrival_time ∧
    r.departure_platform =
      (scanStops fromId toId route.connectionStations).departure_platform ∧
    r.arrival_platform =
      (scanStops fromId toId route.connectionStations).arrival_platform := by
  by_cases hm : toId ∈ route.connectionStations.map Stop.stationId
  · simp only [summarize, if_pos hm, Option.some.injEq] at h
    subst h
    exact ⟨hm, rfl, rfl, rfl, rfl, rfl, rfl⟩
  · simp [summarize, hm] at h


/-! Claim theorems. -/

/-- C1: for every departures response and every threshold `T > 0`,
`check_delays` returns exactly the sublist of `find_route`'s output whose
`delay` is at least `T`, in the same relative order. -/
theorem check_delays_pos_threshold_filters (departures : List UpRoute)
    (fromId toId : Int) (T : Int) (hT : 0 < T) :
    check_delays departures fromId toId T =
      (find_route departures fromId toId).filter
        (fun r => decide (r.delay ≥ T)) := by
  simp [check_delays, hT]

/-- Witness for C1 at the demo departures response and threshold 6. -/
theorem check_delays_pos_threshold_filters_witness :
    (0 : Int) < 6 ∧
    check_delays demoDeps 1 2 6 =
      (find_route demoDeps 1 2).filter (fun r => decide (r.delay ≥ (6 : Int))) :=
  ⟨by norm_num, check_delays_pos_threshold_filters demoDeps 1 2 6 (by norm_num)⟩

/-- C2: for every departures response and every threshold `T ≤ 0`,
`check_delays` returns `find_route`'s output unfiltered. -/
theorem check_delays_nonpos_threshold_id (departures : List UpRoute)
    (fromId toId : Int) (T : Int) (hT : T ≤ 0) :
    check_delays departures fromId toId T = find_route departures fromId toId := by
  have h : ¬ T > 0 := not_lt.mpr hT
  simp [check_delays, h]

/-- Witness for C2 at the demo departures response and threshold 0. -/
theorem check_delays_nonpos_threshold_id_witness :
    (0 : Int) ≤ 0 ∧ check_delays demoDeps 1 2 0 = find_route demoDeps 1 2 :=
  ⟨le_refl 0, check_delays_nonpos_threshold_id demoDeps 1 2 0 (le_refl 0)⟩

/-- C3: a route whose stop sequence lacks the destination station ID is
dropped by `find_route`, and every emitted summary's stop sequence
contains the destination station ID. -/
theorem find_route_contains_destination (departures : List UpRoute)
    (fromId toId : Int) :
    (∀ route ∈ departures,
        toId ∉ route.connectionStations.map Stop.stationId →
        summarize fromId toId route = none) ∧
    (∀ r ∈ find_route departures fromId toId,
        toId ∈ r.all_stations.map Stop.stationId) := by
  constructor
  · intro route _ hnot
    simp [summarize, hnot]
  · intro r hr
    obtain ⟨route, _, hs⟩ := mem_find_route departures fromId toId r hr
    obtain ⟨hm, _, hall, _⟩ := summarize_some_fields fromId toId route r hs
    rw [hall]
    exact hm

/-- Witness for C3: the demo route that misses station 2 is dropped, and
the emitted summary of `routeA` contains station 2. -/
theorem find_route_contains_destination_witness :
    summarize 1 2 routeB = none ∧
    (2 : Int) ∈ sumA.all_stations.map Stop.stationId :=
  ⟨(find_route_contains_destination demoDeps 1 2).1 routeB (by decide) (by decide),
   (find_route_contains_destination demoDeps 1 2).2 sumA (by decide)⟩

/-- C4: in every summary emitted by `find_route`, when the stop sequence
contains the origin more than once the departure time and platform are
those of the last stop matching the origin (last write wins), and
symmetrically for duplicated destination stops and the arrival fields. -/
theorem find_route_last_write_wins (departures : List UpRoute)
    (fromId toId : Int) (r : RouteSummary)
    (hr : r ∈ find_route departures fromId toId) :
    (2 ≤ (r.all_stations.filter (fun s => decide (s.stationId = fromId))).length →
      r.departure_time =
        (lastMatching (fun s => decide (s.stationId = fromId))
          r.all_stations).bind Stop.departure ∧
      r.departure_platform =
        (lastMatching (fun s => decide (s.stationId = fromId))
          r.all_stations).bind Stop.platform) ∧
    (2 ≤ (r.all_stations.filter (fun s => decide (s.stationId = toId))).length →
      r.arrival_time =
        (lastMatching (fun s => decide (s.stationId = toId))
          r.all_stations).bind Stop.arrival ∧
      r.arrival_platform =
        (lastMatching (fun s => decide (s.stationId = toId))
          r.all_stations).bind Stop.platform) := by
  obtain ⟨route, _, hs⟩ := mem_find_route departures fromId toId r hr
  obtain ⟨_, _, hall, hdt, hat, hdp, hap⟩ :=
    summarize_some_fields fromId toId route r hs
  constructor
  · intro _
    constructor
    · rw [hdt, scanStops_departure_time, hall]
    · rw [hdp, scanStops_departure_platform, hall]
  · intro _
    constructor
    · rw [hat, scanStops_arrival_time, hall]
    · rw [hap, scanStops_arrival_platform, hall]

/-- Witness for C4 at the demo route with duplicated origin and
destination stops: the second occurrences win. -/
theorem find_route_last_write_wins_witness :
    sumD ∈ find_route demoDeps 1 2 ∧
    2 ≤ (sumD.all_stations.filter (fun s => decide (s.stationId = 1))).length ∧
    2 ≤ (sumD.all_stations.filter (fun s => decide (s.stationId = 2))).length ∧
    (sumD.departure_time =
        (lastMatching (fun s => decide (s.stationId = 1))
          sumD.all_stations).bind Stop.departure ∧
      sumD.departure_platform =
        (lastMatching (fun s => decide (s.stationId = 1))
          sumD.all_stations).bind Stop.platform) ∧
    (sumD.arrival_time =
        (lastMatching (fun s => decide (s.stationId = 2))
          sumD.all_stations).bind Stop.arrival ∧
      sumD.arrival_platform =
        (lastMatching (fun s => decide (s.stationId = 2))
          sumD.all_stations).bind Stop.platform) :=
  ⟨by decide, by decide, by decide,
   (find_route_last_write_wins demoDeps 1 2 sumD (by decide)).1 (by decide),
   (find_route_last_write_wins demoDeps 1 2 sumD (by decide)).2 (by decide)⟩


/-- C5 counterexample: a successful invocation whose stdout is not JSON
is answered with the `status: success` envelope, not with the upstream
payload, though still with HTTP 200. -/
theorem get_delays_success_not_payload :
    @get_delays Unit (fun _ => none) (Except.ok ⟨0, "hello", ""⟩) =
      (ResponseBody.successEnvelope "hello", 200) ∧
    ¬ ∃ j : Unit, (@get_delays Unit (fun _ => none)
        (Except.ok ⟨0, "hello", ""⟩)).1 = ResponseBody.payload j := by
  refine ⟨rfl, ?_⟩
  rintro ⟨j, hj⟩
  simp [get_delays] at hj

/-- C5 as amended: a successful invocation whose stdout parses as JSON is
answered with that payload and HTTP 200; a successful invocation whose
stdout does not parse is answered with the `status: success` /
`raw_output` envelope and HTTP 200; a failed invocation (non-zero exit
status or an exception) is answered with the error envelope and
HTTP 500. -/
theorem get_delays_response_shape {J : Type} (json_loads : String → Option J)
    (result : ProcResult) (e : String) :
    (result.returncode = 0 → ∀ data, json_loads result.stdout = some data →
      get_delays json_loads (Except.ok result) =
        (ResponseBody.payload data, 200)) ∧
    (result.returncode = 0 → json_loads result.stdout = none →
      get_delays json_loads (Except.ok result) =
        (ResponseBody.successEnvelope result.stdout, 200)) ∧
    (result.returncode ≠ 0 →
      get_delays json_loads (Except.ok result) =
        (ResponseBody.errorEnvelope result.stderr, 500)) ∧
    get_delays json_loads (Except.error e) =
      (ResponseBody.errorEnvelope e, 500) := by
  refine ⟨?_, ?_, ?_, rfl⟩
  · intro h0 data hparse
    simp [get_delays, h0, hparse]
  · intro h0 hparse
    simp [get_delays, h0, hparse]
  · intro hne
    simp [get_delays, hne]

/-- Witness for the amended C5 at concrete invocations. -/
theorem get_delays_response_shape_witness :
    @get_delays Unit (fun _ => some ()) (Except.ok ⟨0, "[]", ""⟩) =
      (ResponseBody.payload (), 200) ∧
    @get_delays Unit (fun _ => some ()) (Except.ok ⟨1, "", "boom"⟩) =
      (ResponseBody.errorEnvelope "boom", 500) ∧
    @get_delays Unit (fun _ => some ()) (Except.error "exc") =
      (ResponseBody.errorEnvelope "exc", 500) :=
  ⟨(get_delays_response_shape (fun _ => some ()) ⟨0, "[]", ""⟩ "exc").1 rfl () rfl,
   (get_delays_response_shape (fun _ => some ()) ⟨1, "", "boom"⟩ "exc").2.2.1
     (by decide),
   (get_delays_response_shape (fun _ => some ()) ⟨1, "", "boom"⟩ "exc").2.2.2⟩

/-- The delay statistics on the `[0, 5, 15]` example list. -/
lemma demoStats_eval :
    print_delays_summary demoStats = SummaryOutput.summary 3 1 2 (20/3) 15 := by
  simp [print_delays_summary, demoStats, mkSum]

/-- C6: on the empty route list the summary is the `no routes` notice,
and the statistics branch (whose division is by `total`) is reached only
with a positive `total`. -/
theorem print_delays_summary_empty_guard :
    print_delays_summary [] = SummaryOutput.noRoutes ∧
    ∀ (routes : List RouteSummary) (total on_time delayed : Nat) (avg : ℚ)
      (m : Int),
      print_delays_summary routes =
        SummaryOutput.summary total on_time delayed avg m →
      0 < total := by
  refine ⟨rfl, ?_⟩
  intro routes total o d avg m h
  cases routes with
  | nil => simp [print_delays_summary] at h
  | cons a l =>
    simp [print_delays_summary] at h
    obtain ⟨h1, -⟩ := h
    omega

/-- Witness for C6: the notice on `[]`, and a positive total at the
statistics example list. -/
theorem print_delays_summary_empty_guard_witness :
    print_delays_summary demoStats = SummaryOutput.summary 3 1 2 (20/3) 15 ∧
    print_delays_summary [] = SummaryOutput.noRoutes ∧ 0 < 3 :=
  ⟨demoStats_eval, print_delays_summary_empty_guard.1,
   print_delays_summary_empty_guard.2 demoStats 3 1 2 (20/3) 15 demoStats_eval⟩

/-- C7: on the delay list `[0, 5, 15]` the summary reports 3 routes,
1 on time, 2 delayed, average `20/3` (which prints as 6.7 after rounding
to one decimal), and maximum 15. -/
theorem print_delays_summary_stats_concrete :
    print_delays_summary demoStats = SummaryOutput.summary 3 1 2 (20/3) 15 ∧
    round_one_decimal (20/3) = 67/10 := by
  refine ⟨demoStats_eval, ?_⟩
  rw [round_one_decimal, show ((20 : ℚ)/3*10) = 200/3 by norm_num, round_eq]
  norm_num

/-- C8: `find_station` depends on its search term only through its
lower-cased form, so search terms differing only in letter case give
identical results. -/
theorem find_station_case_insensitive (locations : List Country)
    (s₁ s₂ : String) (h : lower s₁ = lower s₂) :
    find_station locations s₁ = find_station locations s₂ := by
  simp only [find_station, h]

/-- Witness for C8 on the demo directory with "SOKOLOV" / "sokolov". -/
theorem find_station_case_insensitive_witness :
    lower "SOKOLOV" = lower "sokolov" ∧
    find_station demoLocations "SOKOLOV" =
      find_station demoLocations "sokolov" :=
  ⟨by decide,
   find_station_case_insensitive demoLocations "SOKOLOV" "sokolov" (by decide)⟩

/-- C9: a city-name match emits every station of the city, a failed
city-name match tests stations individually, the two branches are
mutually exclusive so one pass emits each station entry at most once,
and a one-city directory makes `find_station` agree with the per-city
pass. -/
theorem find_station_city_match_semantics (city : City)
    (search_lower : String) :
    (containsSub (lower city.name) search_lower = true →
      cityResults search_lower city =
        city.stations.map (mkStationResult city)) ∧
    (containsSub (lower city.name) search_lower = false →
      cityResults search_lower city =
        (city.stations.filter (stationMatches search_lower)).map
          (mkStationResult city)) ∧
    (cityResults search_lower city).length ≤ city.stations.length ∧
    ∀ term : String,
      find_station [⟨[city]⟩] term = cityResults (lower term) city := by
  refine ⟨?_, ?_, ?_, ?_⟩
  · intro h; simp [cityResults, h]
  · intro h; simp [cityResults, h]
  · rw [cityResults]
    split
    · simp
    · simpa using List.length_filter_le _ _
  · intro term
    simp [find_station]

/-- Witness for C9: the matching demo city emits all its stations, the
non-matching one only its matching station. -/
theorem find_station_city_match_semantics_witness :
    containsSub (lower citySokolov.name) (lower "sokolov") = true ∧
    cityResults (lower "sokolov") citySokolov =
      citySokolov.stations.map (mkStationResult citySokolov) ∧
    containsSub (lower cityPraha.name) (lower "sokolov") = false ∧
    cityResults (lower "sokolov") cityPraha =
      (cityPraha.stations.filter (stationMatches (lower "sokolov"))).map
        (mkStationResult cityPraha) :=
  ⟨by decide,
   (find_station_city_match_semantics citySokolov (lower "sokolov")).1
     (by decide),
   by decide,
   (find_station_city_match_semantics cityPraha (lower "sokolov")).2.1
     (by decide)⟩

/-- C10: a summarized route whose upstream record lacks the `delay` key
gets delay 0, is counted on time by the summary statistics, and is never
kept by `check_delays` with a positive threshold. -/
theorem find_route_missing_delay_on_time (fromId toId : Int)
    (route : UpRoute) (r : RouteSummary) (hdelay : route.delay = none)
    (hsum : summarize fromId toId route = some r) :
    r.delay = 0 ∧
    (∀ routes : List RouteSummary, r ∈ routes →
      0 < routes.countP (fun x => decide (x.delay = 0))) ∧
    ∀ (departures : List UpRoute) (f t T : Int), 0 < T →
      r ∉ check_delays departures f t T := by
  obtain ⟨-, hd, -⟩ := summarize_some_fields fromId toId route r hsum
  have h0 : r.delay = 0 := by rw [hd, hdelay]; rfl
  refine ⟨h0, ?_, ?_⟩
  · intro routes hmem
    exact List.countP_pos_iff.mpr ⟨r, hmem, by simp [h0]⟩
  · intro deps f t T hT hmem
    simp only [check_delays, if_pos hT] at hmem
    have hp := (List.mem_filter.mp hmem).2
    simp [h0] at hp
    omega

/-- Witness for C10 at the demo route without a `delay` key. -/
theorem find_route_missing_delay_on_time_witness :
    routeC.delay = none ∧
    summarize 1 2 routeC = some sumC ∧
    sumC.delay = 0 ∧
    0 < [sumC].countP (fun x => decide (x.delay = 0)) ∧
    (0 : Int) < 5 ∧
    sumC ∉ check_delays demoDeps 1 2 5 :=
  ⟨rfl, by decide,
   (find_route_missing_delay_on_time 1 2 routeC sumC rfl (by decide)).1,
   (find_route_missing_delay_on_time 1 2 routeC sumC rfl (by decide)).2.1
     [sumC] (by decide),
   by norm_num,
   (find_route_missing_delay_on_time 1 2 routeC sumC rfl (by decide)).2.2
     demoDeps 1 2 5 (by norm_num)⟩

end Regiojet
